import Mathlib

/-!
# Verification of the postgresql-mcp-server tool registry and dispatch core

A shallow embedding, in Lean 4, of the parts of the `postgresql-mcp-server`
repository that the frozen claims are about:

* the result envelope and tool descriptor data model (`src/types/tool.ts`,
  as used by `src/index.ts`),
* the dispatch server: `getConnectionString`, `loadAndFilterTools`,
  the `CallToolRequest` handler, and the `allTools` registry (`src/index.ts`),
* the consolidated ("wide" / meta) tools `pg_manage_functions` and
  `pg_manage_rls` (`src/tools/functions.ts`),
* the SQL/parameter builders of `_getFunctions` / `_getRLSPolicies`
  (`src/tools/functions.ts`) and of the comment tools (`src/tools/comment.ts`),
* a trace-level embedding of connection acquisition / release
  (`DatabaseConnection.getInstance` / `connect` / `query` / `disconnect`)
  for the connection-lifecycle invariant.

JavaScript-level conventions used throughout the embedding:

* a thrown exception is modelled as `Except.error msg` carrying the message
  that `error instanceof Error ? error.message : String(error)` would render;
* `undefined`-able values are `Option`s; JS string truthiness (`if (s)`)
  is `jsTruthy` below (`undefined` and `""` are falsy);
* a JS object used as a string-keyed map built by `reduce` (later keys
  overwrite earlier ones) is modelled by `enabledLookup`;
* `JSON.stringify(details)` outputs are abstracted: helper results carry an
  already-serialized `Option String` payload.
-/

/-- One content block of a result envelope: `{ type: 'text', text: ... }`.
Only text blocks occur in this system. -/
structure ContentBlock where
  type : String
  text : String
deriving DecidableEq

/-- The Result Envelope (`ToolOutput` in `src/types/tool.ts`):
`{ content, isError? }`; an absent `isError` is modelled as `false`. -/
structure ToolOutput where
  content : List ContentBlock
  isError : Bool := false
deriving DecidableEq

/-- The error envelope shape `{ content: [{ type: 'text', text: msg }], isError: true }`
used verbatim by every error path in the source. -/
def errEnv (msg : String) : ToolOutput :=
  { content := [{ type := "text", text := msg }], isError := true }

/-- JS string truthiness for an `undefined`-able string: `undefined` and `""`
are falsy, every other string is truthy. -/
def jsTruthy : Option String → Bool
  | none => false
  | some s => !s.isEmpty

/-- The argument object a tool's `execute` receives (`request.params.arguments`).
The dispatch layer applies no schema validation, so every field a tool in this
development destructures is an optional field here.  `usingExpr` / `checkExpr`
model the JS properties `using` / `check`. -/
structure ToolArgs where
  connectionString : Option String := none
  operation : Option String := none
  functionName : Option String := none
  schema : Option String := none
  parameters : Option String := none
  returnType : Option String := none
  functionBody : Option String := none
  language : Option String := none
  volatility : Option String := none
  security : Option String := none
  replace : Option Bool := none
  ifExists : Option Bool := none
  cascade : Option Bool := none
  tableName : Option String := none
  policyName : Option String := none
  usingExpr : Option String := none
  checkExpr : Option String := none
  command : Option String := none
  role : Option String := none
  roles : Option (List String) := none
  analysisType : Option String := none

/-- A connection-string resolver, the `GetConnectionStringFn` passed to every
tool's `execute`; it either returns a connection string or throws. -/
abbrev ConnResolver := Option String → Except String String

/-- A Tool Descriptor (`PostgresTool` in `src/types/tool.ts`): dispatch key
plus execution logic.  `description` and `inputSchema` are advertisement-only
and are not load-bearing for any claim, so they are not carried here. -/
structure PostgresTool where
  name : String
  execute : ToolArgs → ConnResolver → Except String ToolOutput

/-! ## Connection string resolution (`getConnectionString`, src/index.ts) -/

/-- The CLI/environment configuration the module-level `getConnectionString`
closure reads: `options.connectionString` and
`process.env.POSTGRES_CONNECTION_STRING`. -/
structure CliEnvConfig where
  cliConnectionString : Option String := none
  envConnectionString : Option String := none

/-- The message of the `McpError` thrown when no connection string source is
available (src/index.ts, `getConnectionString`). -/
def noConnStringMsg : String :=
  "No connection string provided. Provide one in the tool arguments, via the --connection-string CLI option, or set the POSTGRES_CONNECTION_STRING environment variable."

/-- `getConnectionString` (src/index.ts): explicit argument, then CLI option,
then environment variable, each guarded by JS truthiness; throws an `McpError`
when all three are falsy. -/
def getConnectionString (cfg : CliEnvConfig) (connectionStringArg : Option String) :
    Except String String :=
  if jsTruthy connectionStringArg then .ok (connectionStringArg.getD "")
  else if jsTruthy cfg.cliConnectionString then .ok (cfg.cliConnectionString.getD "")
  else if jsTruthy cfg.envConnectionString then .ok (cfg.envConnectionString.getD "")
  else .error noConnStringMsg

/-- Specification-side formulation for C7: the first truthy (non-empty,
present) entry of a list of optional strings. -/
def firstNonEmpty : List (Option String) → Option String
  | [] => none
  | o :: rest => if jsTruthy o then some (o.getD "") else firstNonEmpty rest

/-! ## Enablement filtering (`loadAndFilterTools`, src/index.ts) -/

/-- The outcome of reading `options.toolsConfig`: no `--tools-config` path was
given, the file could not be read/parsed (the `catch` branch), the parsed JSON
failed the `Array.isArray(config.enabledTools) && every string` shape check,
or a valid allow-list of names. -/
inductive ToolsConfigSource
  | noPath
  | readError (msg : String)
  | invalidFormat
  | valid (enabledTools : List String)

/-- Insertion-order deduplication: the iteration order of
`new Set(config.enabledTools)` — elements are added left to right, an element
already present is skipped (first occurrence wins). -/
def jsSetList (l : List String) : List String :=
  l.foldl (fun acc s => if acc.contains s then acc else acc ++ [s]) []

/-- What `loadAndFilterTools` produces: the enabled tools, plus the names for
which `[MCP Warning] Tool "<name>" specified in config file but not found in
available tools.` was logged. -/
structure FilterResult where
  enabledTools : List PostgresTool
  warnings : List String

/-- `loadAndFilterTools` (src/index.ts): start from the full
`availableToolsList`; with a valid config, keep exactly the tools whose name is
in the `enabledTools` set and warn (non-fatally) about each requested name no
available tool bears; in every other case (no path, unreadable file, invalid
format) fall back to enabling the full list. -/
def loadAndFilterTools (availableToolsList : List PostgresTool)
    (cfg : ToolsConfigSource) : FilterResult :=
  match cfg with
  | .valid names =>
      let enabledToolNames := jsSetList names
      let toolsToEnable :=
        availableToolsList.filter (fun tool => enabledToolNames.contains tool.name)
      let warnings :=
        enabledToolNames.filter
          (fun requestedName =>
            !(availableToolsList.any (fun tool => tool.name = requestedName)))
      ⟨toolsToEnable, warnings⟩
  | _ => ⟨availableToolsList, []⟩

/-! ## Dispatch (`setupToolHandlers`, src/index.ts) -/

/-- The dispatch-relevant state of `PostgreSQLServer`: the full registry
(`availableToolsList`) and the enabled subset (`enabledTools`, from which
`enabledToolsMap` is derived). -/
structure ServerState where
  availableToolsList : List PostgresTool
  enabledTools : List PostgresTool

/-- A server state as the constructor builds it: `availableToolsList` is the
initial tool list and `enabledTools` comes from `loadAndFilterTools`. -/
def ServerState.ofConfig (initialTools : List PostgresTool)
    (cfg : ToolsConfigSource) : ServerState :=
  ⟨initialTools, (loadAndFilterTools initialTools cfg).enabledTools⟩

/-- Lookup in `enabledToolsMap`: the map is built by
`reduce((acc, tool) => { acc[tool.name] = tool; ... })`, so a later tool with
the same name overwrites an earlier one; indexing with an absent key yields
`undefined`. -/
def enabledLookup (tools : List PostgresTool) (toolName : String) :
    Option PostgresTool :=
  tools.foldl (fun acc tool => if tool.name = toolName then some tool else acc) none

/-- The `MethodNotFound` message when the name is in `availableToolsList` but
not enabled. -/
def notEnabledMsg (toolName : String) : String :=
  "Tool \"" ++ toolName ++ "\" is available but not enabled by the current server configuration."

/-- The `MethodNotFound` message when the name is unknown altogether. -/
def notFoundMsg (toolName : String) : String :=
  "Tool '" ++ toolName ++ "' is not enabled or does not exist."

/-- The body of the `CallToolRequestSchema` handler's `try` block: look the
name up in `enabledToolsMap`; throw an `McpError` on a miss (with the message
depending on whether the registry contains the name at all); otherwise run the
tool's `execute` with the module-level `getConnectionString`.  An `.error` is
an exception escaping the `try`. -/
def callToolAttempt (st : ServerState) (cfg : CliEnvConfig) (toolName : String)
    (args : ToolArgs) : Except String ToolOutput :=
  match enabledLookup st.enabledTools toolName with
  | none =>
      .error
        (if st.availableToolsList.any (fun t => t.name = toolName) then
          notEnabledMsg toolName
        else notFoundMsg toolName)
  | some tool => tool.execute args (getConnectionString cfg)

/-- The complete `CallToolRequestSchema` handler: the `catch` converts any
exception from lookup or execution into the
`{ content: [{ type: 'text', text: 'Error: ...' }], isError: true }` envelope;
a normal result is returned unchanged. -/
def handleCallTool (st : ServerState) (cfg : CliEnvConfig) (toolName : String)
    (args : ToolArgs) : ToolOutput :=
  match callToolAttempt st cfg toolName args with
  | .ok result => result
  | .error msg => errEnv ("Error: " ++ msg)

/-- `listTools` (the `ListToolsRequestSchema` handler) projected to the
descriptor names it returns, one per enabled tool, in enabled order. -/
def listToolNames (st : ServerState) : List String :=
  st.enabledTools.map (fun tool => tool.name)

/-! ### Helper lemmas about lookup and filtering -/

theorem enabledLookup_foldl_none (l : List PostgresTool) (n : String) :
    ∀ acc : Option PostgresTool,
      (l.foldl (fun acc tool => if tool.name = n then some tool else acc) acc = none ↔
        acc = none ∧ ∀ t ∈ l, t.name ≠ n) := by
  induction l with
  | nil => intro acc; simp
  | cons a l ih =>
      intro acc
      simp only [List.foldl_cons]
      by_cases ha : a.name = n
      · rw [if_pos ha, ih]
        constructor
        · rintro ⟨h, -⟩; exact absurd h (by simp)
        · rintro ⟨-, hall⟩
          exact absurd ha (hall a (by simp))
      · rw [if_neg ha, ih]
        constructor
        · rintro ⟨h, hall⟩
          exact ⟨h, by
            intro t ht
            rcases List.mem_cons.mp ht with rfl | ht
            · exact ha
            · exact hall t ht⟩
        · rintro ⟨h, hall⟩
          exact ⟨h, fun t ht => hall t (List.mem_cons_of_mem _ ht)⟩

theorem enabledLookup_eq_none_iff (l : List PostgresTool) (n : String) :
    enabledLookup l n = none ↔ ∀ t ∈ l, t.name ≠ n := by
  unfold enabledLookup
  rw [enabledLookup_foldl_none]
  simp

theorem mem_jsSetList_aux (a : String) :
    ∀ (l acc : List String),
      (a ∈ l.foldl (fun acc s => if acc.contains s then acc else acc ++ [s]) acc ↔
        a ∈ acc ∨ a ∈ l) := by
  intro l
  induction l with
  | nil => intro acc; simp
  | cons b t ih =>
      intro acc
      rw [List.foldl_cons, ih]
      by_cases hc : acc.contains b
      · rw [if_pos hc]
        have hb : b ∈ acc := List.elem_iff.mp hc
        constructor
        · rintro (h | h)
          · exact Or.inl h
          · exact Or.inr (List.mem_cons_of_mem _ h)
        · rintro (h | h)
          · exact Or.inl h
          · rcases List.mem_cons.mp h with rfl | h2
            · exact Or.inl hb
            · exact Or.inr h2
      · rw [if_neg hc]
        constructor
        · rintro (h | h)
          · rcases List.mem_append.mp h with h2 | h2
            · exact Or.inl h2
            · have : a = b := by simpa using h2
              exact Or.inr (this ▸ List.mem_cons_self b t)
          · exact Or.inr (List.mem_cons_of_mem _ h)
        · rintro (h | h)
          · exact Or.inl (List.mem_append.mpr (Or.inl h))
          · rcases List.mem_cons.mp h with rfl | h2
            · exact Or.inl (List.mem_append.mpr (Or.inr (by simp)))
            · exact Or.inr h2

theorem mem_jsSetList (a : String) : ∀ l : List String, a ∈ jsSetList l ↔ a ∈ l := by
  intro l
  unfold jsSetList
  rw [mem_jsSetList_aux]
  simp

theorem contains_jsSetList (l : List String) (a : String) :
    (jsSetList l).contains a = l.contains a := by
  have h := mem_jsSetList a l
  show List.elem a (jsSetList l) = List.elem a l
  by_cases hm : a ∈ l
  · rw [List.elem_eq_true_of_mem (h.mpr hm), List.elem_eq_true_of_mem hm]
  · have h1 : List.elem a (jsSetList l) = false := by
      rw [Bool.eq_false_iff]
      intro hc
      exact hm (h.mp (List.elem_iff.mp hc))
    have h2 : List.elem a l = false := by
      rw [Bool.eq_false_iff]
      intro hc
      exact hm (List.elem_iff.mp hc)
    rw [h1, h2]

/-! ## Tools of `src/tools/functions.ts`

The database-touching helpers `_getFunctions`, `_createFunction`,
`_dropFunction`, `_enableRLS`, ... all catch their own exceptions and always
resolve to a `FunctionResult` (`{ success, message, details }`), so at the
tool layer they are modelled as total oracle functions collected in
`FunctionsDb` / `RlsDb`; a separate trace-level embedding below
(`getFunctionsRun` etc.) covers their internal connect/query/disconnect
behaviour. -/

/-- `FunctionResult` (src/tools/functions.ts): `details` carries an
already-serialized payload, `none` standing for JS `null`/`undefined`. -/
structure FunctionResult where
  success : Bool
  message : String
  details : Option String
deriving DecidableEq

/-- Options object of `_createFunction`. -/
structure FnCreateOpts where
  language : Option String := none
  volatility : Option String := none
  schema : Option String := none
  security : Option String := none
  replace : Option Bool := none

/-- Options object of `_dropFunction`. -/
structure FnDropOpts where
  schema : Option String := none
  ifExists : Option Bool := none
  cascade : Option Bool := none

/-- Oracle for the three function-management helpers: each field gives the
`FunctionResult` the helper resolves to for given arguments (the helpers never
throw — they wrap all their failures). Argument order mirrors the source
signatures, connection string first. -/
structure FunctionsDb where
  getFunctions : String → Option String → Option String → FunctionResult
  createFunction : String → String → String → String → String → FnCreateOpts → FunctionResult
  dropFunction : String → String → Option String → FnDropOpts → FunctionResult

/-- Options object of `_createRLSPolicy`. -/
structure RlsCreateOpts where
  schema : Option String := none
  command : Option String := none
  role : Option String := none
  replace : Option Bool := none

/-- Options object of `_editRLSPolicy` (`usingExpr`/`checkExpr` model the JS
properties `using`/`check`). -/
structure RlsEditOpts where
  schema : Option String := none
  roles : Option (List String) := none
  usingExpr : Option String := none
  checkExpr : Option String := none

/-- Options object of `_dropRLSPolicy`. -/
structure RlsDropOpts where
  schema : Option String := none
  ifExists : Option Bool := none

/-- Oracle for the six RLS helpers, analogous to `FunctionsDb`. -/
structure RlsDb where
  enableRLS : String → String → Option String → FunctionResult
  disableRLS : String → String → Option String → FunctionResult
  createRLSPolicy : String → String → String → String → Option String → RlsCreateOpts → FunctionResult
  editRLSPolicy : String → String → String → RlsEditOpts → FunctionResult
  dropRLSPolicy : String → String → String → RlsDropOpts → FunctionResult
  getRLSPolicies : String → Option String → Option String → FunctionResult

/-- ``result.message + (result.details ? ` Details: ${JSON.stringify(result.details)}` : '')``. -/
def detailsSuffix : Option String → String
  | some d => " Details: " ++ d
  | none => ""

/-- The common post-`switch` wrapping of a helper result: success envelope
with message and details, or `{ text: result.message, isError: true }`. -/
def commonResultOutput (result : FunctionResult) : ToolOutput :=
  if result.success then
    { content := [{ type := "text", text := result.message ++ detailsSuffix result.details }] }
  else errEnv result.message

/-- The `get`-style success envelope:
`JSON.stringify(result.details, null, 2) || result.message`. -/
def getStyleOutput (result : FunctionResult) : ToolOutput :=
  let text := (match result.details with | some d => d | none => result.message)
  { content := [{ type := "text", text := text }] }

/-- How a JS template literal renders the `operation` value: `undefined`
prints as the string `undefined`. -/
def opRender (operation : Option String) : String := operation.getD "undefined"

/-- `Array.prototype.join(', ')`. -/
def joinComma : List String → String
  | [] => ""
  | [a] => a
  | a :: rest => a ++ ", " ++ joinComma rest

/-- The `missingFields` list the `create` branch of `pg_manage_functions`
accumulates: `functionName`, `returnType`, `functionBody`, in push order, each
included when the corresponding argument is JS-falsy. -/
def missingCreateFields (args : ToolArgs) : List String :=
  (if jsTruthy args.functionName then [] else ["functionName"]) ++
    (if jsTruthy args.returnType then [] else ["returnType"]) ++
      (if jsTruthy args.functionBody then [] else ["functionBody"])

/-- The full missing-fields message of the `create` branch. -/
def createMissingMsg (missingFields : List String) : String :=
  "Error: Missing required fields: " ++ joinComma missingFields ++
    ". Note: parameters can be empty string \"\" for functions with no parameters"

/-- The unknown-operation message of `pg_manage_functions`. -/
def fnUnknownOpMsg (operation : Option String) : String :=
  "Error: Unknown operation \"" ++ opRender operation ++ "\". Supported operations: get, create, drop"

/-- The `switch (operation)` of `pg_manage_functions.execute`
(src/tools/functions.ts), run after the connection string has been resolved.
Nothing inside the source's `try` can throw (the helpers are total), so the
body is a total function into `ToolOutput` and the surrounding
`catch (error)` branch is dead. -/
def manageFunctionsBody (db : FunctionsDb) (args : ToolArgs)
    (resolvedConnString : String) : ToolOutput :=
  if args.operation = some "get" then
    let result := db.getFunctions resolvedConnString args.functionName args.schema
    if result.success then getStyleOutput result else errEnv result.message
  else if args.operation = some "create" then
    let missingFields := missingCreateFields args
    if missingFields.length > 0 then errEnv (createMissingMsg missingFields)
    else
      let normalizedParameters : String :=
        match args.parameters with
        | none => ""
        | some s => if s.trim = "" then "" else s
      commonResultOutput
        (db.createFunction resolvedConnString (args.functionName.getD "")
          normalizedParameters (args.returnType.getD "") (args.functionBody.getD "")
          { language := args.language, volatility := args.volatility,
            schema := args.schema, security := args.security, replace := args.replace })
  else if args.operation = some "drop" then
    if !jsTruthy args.functionName then
      errEnv "Error: functionName is required for drop operation"
    else
      commonResultOutput
        (db.dropFunction resolvedConnString (args.functionName.getD "") args.parameters
          { schema := args.schema, ifExists := args.ifExists, cascade := args.cascade })
  else errEnv (fnUnknownOpMsg args.operation)

/-- `pg_manage_functions.execute`: destructure `args`, resolve the connection
string (`getConnectionStringVal(connStringArg)` — a throw here escapes the
tool, since it happens before the `try`), then run the operation switch. -/
def manageFunctionsExecute (db : FunctionsDb) (args : ToolArgs)
    (getConnectionStringVal : ConnResolver) : Except String ToolOutput := do
  let resolvedConnString ← getConnectionStringVal args.connectionString
  pure (manageFunctionsBody db args resolvedConnString)

/-- The unknown-operation message of `pg_manage_rls`. -/
def rlsUnknownOpMsg (operation : Option String) : String :=
  "Error: Unknown operation \"" ++ opRender operation ++
    "\". Supported operations: enable, disable, create_policy, edit_policy, drop_policy, get_policies"

/-- The `switch (operation)` of `pg_manage_rls.execute` (src/tools/functions.ts). -/
def manageRLSBody (db : RlsDb) (args : ToolArgs) (resolvedConnString : String) :
    ToolOutput :=
  if args.operation = some "enable" then
    if !jsTruthy args.tableName then
      errEnv "Error: tableName is required for enable operation"
    else commonResultOutput (db.enableRLS resolvedConnString (args.tableName.getD "") args.schema)
  else if args.operation = some "disable" then
    if !jsTruthy args.tableName then
      errEnv "Error: tableName is required for disable operation"
    else commonResultOutput (db.disableRLS resolvedConnString (args.tableName.getD "") args.schema)
  else if args.operation = some "create_policy" then
    if !jsTruthy args.tableName || !jsTruthy args.policyName || !jsTruthy args.usingExpr then
      errEnv "Error: tableName, policyName, and using are required for create_policy operation"
    else
      commonResultOutput
        (db.createRLSPolicy resolvedConnString (args.tableName.getD "")
          (args.policyName.getD "") (args.usingExpr.getD "") args.checkExpr
          { schema := args.schema, command := args.command, role := args.role,
            replace := args.replace })
  else if args.operation = some "edit_policy" then
    if !jsTruthy args.tableName || !jsTruthy args.policyName then
      errEnv "Error: tableName and policyName are required for edit_policy operation"
    else
      commonResultOutput
        (db.editRLSPolicy resolvedConnString (args.tableName.getD "") (args.policyName.getD "")
          { schema := args.schema, roles := args.roles, usingExpr := args.usingExpr,
            checkExpr := args.checkExpr })
  else if args.operation = some "drop_policy" then
    if !jsTruthy args.tableName || !jsTruthy args.policyName then
      errEnv "Error: tableName and policyName are required for drop_policy operation"
    else
      commonResultOutput
        (db.dropRLSPolicy resolvedConnString (args.tableName.getD "") (args.policyName.getD "")
          { schema := args.schema, ifExists := args.ifExists })
  else if args.operation = some "get_policies" then
    let result := db.getRLSPolicies resolvedConnString args.tableName args.schema
    if result.success then getStyleOutput result else errEnv result.message
  else errEnv (rlsUnknownOpMsg args.operation)

/-- `pg_manage_rls.execute`: connection resolution first (before the `try`),
then the operation switch. -/
def manageRLSExecute (db : RlsDb) (args : ToolArgs)
    (getConnectionStringVal : ConnResolver) : Except String ToolOutput := do
  let resolvedConnString ← getConnectionStringVal args.connectionString
  pure (manageRLSBody db args resolvedConnString)

/-- The consolidated `pg_manage_functions` tool descriptor. -/
def manageFunctionsToolV (db : FunctionsDb) : PostgresTool :=
  { name := "pg_manage_functions", execute := manageFunctionsExecute db }

/-- The consolidated `pg_manage_rls` tool descriptor. -/
def manageRLSToolV (db : RlsDb) : PostgresTool :=
  { name := "pg_manage_rls", execute := manageRLSExecute db }

/-! ### Granular (pre-consolidation) tools, as registered by `src/index.ts`

Where the source's `as` cast lets an `undefined` required field through to a
helper, the embedding passes the string `undefined` (what a JS template
literal later renders it as). -/

/-- `pg_get_functions` (src/tools/functions.ts). -/
def getFunctionsTool (db : FunctionsDb) : PostgresTool :=
  { name := "pg_get_functions",
    execute := fun args resolve => do
      let cs ← resolve args.connectionString
      let result := db.getFunctions cs args.functionName args.schema
      pure (if result.success then getStyleOutput result else errEnv result.message) }

/-- `pg_create_function` (src/tools/functions.ts). -/
def createFunctionTool (db : FunctionsDb) : PostgresTool :=
  { name := "pg_create_function",
    execute := fun args resolve => do
      let cs ← resolve args.connectionString
      let result := db.createFunction cs (args.functionName.getD "undefined")
        (args.parameters.getD "undefined") (args.returnType.getD "undefined")
        (args.functionBody.getD "undefined")
        { language := args.language, volatility := args.volatility, schema := args.schema,
          security := args.security, replace := args.replace }
      pure (commonResultOutput result) }

/-- `pg_drop_function` (src/tools/functions.ts). -/
def dropFunctionTool (db : FunctionsDb) : PostgresTool :=
  { name := "pg_drop_function",
    execute := fun args resolve => do
      let cs ← resolve args.connectionString
      let result := db.dropFunction cs (args.functionName.getD "undefined") args.parameters
        { schema := args.schema, ifExists := args.ifExists, cascade := args.cascade }
      pure (commonResultOutput result) }

/-- `pg_enable_rls` (src/tools/functions.ts). -/
def enableRLSTool (db : RlsDb) : PostgresTool :=
  { name := "pg_enable_rls",
    execute := fun args resolve => do
      let cs ← resolve args.connectionString
      pure (commonResultOutput (db.enableRLS cs (args.tableName.getD "undefined") args.schema)) }

/-- `pg_disable_rls` (src/tools/functions.ts). -/
def disableRLSTool (db : RlsDb) : PostgresTool :=
  { name := "pg_disable_rls",
    execute := fun args resolve => do
      let cs ← resolve args.connectionString
      pure (commonResultOutput (db.disableRLS cs (args.tableName.getD "undefined") args.schema)) }

/-- `pg_create_rls_policy` (src/tools/functions.ts). -/
def createRLSPolicyTool (db : RlsDb) : PostgresTool :=
  { name := "pg_create_rls_policy",
    execute := fun args resolve => do
      let cs ← resolve args.connectionString
      pure (commonResultOutput
        (db.createRLSPolicy cs (args.tableName.getD "undefined") (args.policyName.getD "undefined")
          (args.usingExpr.getD "undefined") args.checkExpr
          { schema := args.schema, command := args.command, role := args.role,
            replace := args.replace })) }

/-- `pg_drop_rls_policy` (src/tools/functions.ts). -/
def dropRLSPolicyTool (db : RlsDb) : PostgresTool :=
  { name := "pg_drop_rls_policy",
    execute := fun args resolve => do
      let cs ← resolve args.connectionString
      pure (commonResultOutput
        (db.dropRLSPolicy cs (args.tableName.getD "undefined") (args.policyName.getD "undefined")
          { schema := args.schema, ifExists := args.ifExists })) }

/-- `pg_edit_rls_policy` (src/tools/functions.ts). -/
def editRLSPolicyTool (db : RlsDb) : PostgresTool :=
  { name := "pg_edit_rls_policy",
    execute := fun args resolve => do
      let cs ← resolve args.connectionString
      pure (commonResultOutput
        (db.editRLSPolicy cs (args.tableName.getD "undefined") (args.policyName.getD "undefined")
          { schema := args.schema, roles := args.roles, usingExpr := args.usingExpr,
            checkExpr := args.checkExpr })) }

/-- `pg_get_rls_policies` (src/tools/functions.ts). -/
def getRLSPoliciesTool (db : RlsDb) : PostgresTool :=
  { name := "pg_get_rls_policies",
    execute := fun args resolve => do
      let cs ← resolve args.connectionString
      let result := db.getRLSPolicies cs args.tableName args.schema
      pure (if result.success then getStyleOutput result else errEnv result.message) }

/-! ### The `pg_analyze_database` tool (src/tools/analyze.ts) -/

/-- Oracle for `originalAnalyzeDatabase`: the serialized `AnalysisResult` the
analysis resolves to, or the exception it throws (connection failures
propagate out of `analyzeDatabase`). -/
structure AnalyzeDb where
  analyze : String → String → Except String String

/-- `pg_analyze_database` (src/tools/analyze.ts): validate `analysisType`
first (this tool validates before resolving the connection string), then
resolve, run the analysis and return its JSON. -/
def analyzeDatabaseTool (db : AnalyzeDb) : PostgresTool :=
  { name := "pg_analyze_database",
    execute := fun args resolve =>
      if !jsTruthy args.analysisType ||
          !(["configuration", "performance", "security"].contains (args.analysisType.getD "")) then
        pure (errEnv "Error: analysisType is required and must be one of ['configuration', 'performance', 'security'].")
      else do
        let resolvedConnString ← resolve args.connectionString
        let result ← db.analyze resolvedConnString (args.analysisType.getD "")
        pure { content := [{ type := "text", text := result }] } }

/-! ### The registry (`allTools`, src/index.ts) -/

/-- Modelled from the spec: the tools imported by `src/index.ts` from
`./tools/debug.js`, `./tools/enums.js`, `./tools/migration.js`,
`./tools/monitor.js`, `./tools/schema.js`, `./tools/setup.js` and
`./tools/triggers.js` are not part of the sources under `src/`; only their
names (as documented in the repository's README and
CONSOLIDATION_PROGRESS.md, e.g. `pg_get_schema_info`, `pg_create_table`,
`pg_alter_table`, `pg_get_enums`, `pg_create_enum`, `pg_get_triggers`,
`pg_create_trigger`, `pg_drop_trigger`, `pg_set_trigger_state`) are modelled;
no claim depends on their execution behaviour. -/
def modelledTool (toolName : String) : PostgresTool :=
  { name := toolName,
    execute := fun _ _ => .error ("Tool " ++ toolName ++ " is modelled by name only") }

/-- The `allTools` array of `src/index.ts`: the 25 tool descriptors the
server is constructed with, in source order.  Note that the consolidated
tools `pg_manage_functions` and `pg_manage_rls`, although exported by
`src/tools/functions.ts`, are **not** imported or registered by
`src/index.ts` — the registry holds the granular tools. -/
def allTools (fdb : FunctionsDb) (rdb : RlsDb) (adb : AnalyzeDb) : List PostgresTool :=
  [analyzeDatabaseTool adb,
   getFunctionsTool fdb,
   createFunctionTool fdb,
   dropFunctionTool fdb,
   enableRLSTool rdb,
   disableRLSTool rdb,
   createRLSPolicyTool rdb,
   dropRLSPolicyTool rdb,
   editRLSPolicyTool rdb,
   getRLSPoliciesTool rdb,
   modelledTool "pg_debug_database",
   modelledTool "pg_get_enums",
   modelledTool "pg_create_enum",
   modelledTool "pg_export_table_data",
   modelledTool "pg_import_table_data",
   modelledTool "pg_copy_between_databases",
   modelledTool "pg_monitor_database",
   modelledTool "pg_get_schema_info",
   modelledTool "pg_create_table",
   modelledTool "pg_alter_table",
   modelledTool "pg_get_setup_instructions",
   modelledTool "pg_get_triggers",
   modelledTool "pg_create_trigger",
   modelledTool "pg_drop_trigger",
   modelledTool "pg_set_trigger_state"]

/-- A fixed trivial outcome for helper oracles used in concrete scenarios. -/
def trivialResult : FunctionResult :=
  { success := true, message := "ok", details := none }

/-- A concrete `FunctionsDb` fixture for closed scenario statements. -/
def trivialFunctionsDb : FunctionsDb :=
  { getFunctions := fun _ _ _ => trivialResult,
    createFunction := fun _ _ _ _ _ _ => trivialResult,
    dropFunction := fun _ _ _ _ => trivialResult }

/-- A concrete `RlsDb` fixture for closed scenario statements. -/
def trivialRlsDb : RlsDb :=
  { enableRLS := fun _ _ _ => trivialResult,
    disableRLS := fun _ _ _ => trivialResult,
    createRLSPolicy := fun _ _ _ _ _ _ => trivialResult,
    editRLSPolicy := fun _ _ _ _ => trivialResult,
    dropRLSPolicy := fun _ _ _ _ => trivialResult,
    getRLSPolicies := fun _ _ _ => trivialResult }

/-- A concrete `AnalyzeDb` fixture for closed scenario statements. -/
def trivialAnalyzeDb : AnalyzeDb := { analyze := fun _ _ => .ok "analysis" }

/-- The registry instantiated with the trivial fixtures (tool names do not
depend on the oracles). -/
def allToolsDemo : List PostgresTool :=
  allTools trivialFunctionsDb trivialRlsDb trivialAnalyzeDb

/-! ## SQL / parameter builders

Query text is reproduced from the source template literals with their interior
newlines; the leading indentation inside those template literals is not
reproduced. -/

/-- The base query of `_getFunctions` (src/tools/functions.ts), bound
parameter `$1` = schema. -/
def getFunctionsBaseSql : String :=
  "SELECT\np.proname AS name,\nl.lanname AS language,\npg_get_function_result(p.oid) AS \"returnType\",\npg_get_function_arguments(p.oid) AS \"arguments\",\nCASE\nWHEN p.provolatile = 'i' THEN 'IMMUTABLE'\nWHEN p.provolatile = 's' THEN 'STABLE'\nWHEN p.provolatile = 'v' THEN 'VOLATILE'\nEND AS volatility,\npg_get_functiondef(p.oid) AS definition,\na.rolname AS owner\nFROM pg_proc p\nJOIN pg_namespace n ON p.pronamespace = n.oid\nJOIN pg_language l ON p.prolang = l.oid\nJOIN pg_authid a ON p.proowner = a.oid\nWHERE n.nspname = $1"

/-- `_getFunctions` query construction: start from the base query and
`params = [schema]`; when a function name is supplied append
`AND p.proname = $2` and push the name; always append the `ORDER BY`. -/
def getFunctionsQuery (functionName : Option String) (schema : String) :
    String × List String :=
  match functionName with
  | some fn =>
      (getFunctionsBaseSql ++ " AND p.proname = $2" ++ " ORDER BY p.proname", [schema, fn])
  | none => (getFunctionsBaseSql ++ " ORDER BY p.proname", [schema])

/-- The base query of `_getRLSPolicies` (src/tools/functions.ts), bound
parameter `$1` = schema. -/
def getRLSPoliciesBaseSql : String :=
  "SELECT\nschemaname,\ntablename,\npolicyname,\nroles,\ncmd,\nqual as \"using\",\nwith_check as \"check\"\nFROM pg_policies\nWHERE schemaname = $1"

/-- `_getRLSPolicies` query construction, same scheme as `_getFunctions`:
optional `AND tablename = $2` with a pushed parameter, then the `ORDER BY`. -/
def getRLSPoliciesQuery (tableName : Option String) (schema : String) :
    String × List String :=
  match tableName with
  | some t =>
      (getRLSPoliciesBaseSql ++ " AND tablename = $2" ++ " ORDER BY tablename, policyname",
        [schema, t])
  | none => (getRLSPoliciesBaseSql ++ " ORDER BY tablename, policyname", [schema])

/-! ## Comment tools (src/tools/comment.ts) -/

/-- The options object shared by `setDatabaseComment`, `removeDatabaseComment`
and `getDatabaseComment`. -/
structure CommentOpts where
  schema : Option String := none
  parentObject : Option String := none
  parameters : Option String := none

/-- The single-quote character. -/
def squote : Char := "'".data.headD 'x'

/-- `comment.replace(/'/g, "''")`: double every single quote. -/
def escapeComment (comment : String) : String :=
  String.mk (comment.data.flatMap (fun c => if c = squote then [squote, squote] else [c]))

/-- The `COMMENT ON ...` statement `setDatabaseComment` builds: the big
`switch (objectType)`, with the `throw new Error(...)` branches as `.error`.
Every caller-supplied part (schema, object name, parent object, parameters,
escaped comment) is interpolated into the SQL text. -/
def setDatabaseCommentSql (objectType objectName comment : String)
    (options : CommentOpts) : Except String String :=
  let schema := options.schema.getD "public"
  let escapedComment := escapeComment comment
  if objectType = "table" then
    .ok ("COMMENT ON TABLE " ++ schema ++ "." ++ objectName ++ " IS '" ++ escapedComment ++ "'")
  else if objectType = "column" then
    if !jsTruthy options.parentObject then
      .error "Parent object (table name) is required for column comments"
    else
      .ok ("COMMENT ON COLUMN " ++ schema ++ "." ++ options.parentObject.getD "" ++ "." ++
        objectName ++ " IS '" ++ escapedComment ++ "'")
  else if objectType = "function" then
    let params := if jsTruthy options.parameters then "(" ++ options.parameters.getD "" ++ ")" else ""
    .ok ("COMMENT ON FUNCTION " ++ schema ++ "." ++ objectName ++ params ++ " IS '" ++
      escapedComment ++ "'")
  else if objectType = "policy" then
    if !jsTruthy options.parentObject then
      .error "Parent object (table name) is required for policy comments"
    else
      .ok ("COMMENT ON POLICY " ++ objectName ++ " ON " ++ schema ++ "." ++
        options.parentObject.getD "" ++ " IS '" ++ escapedComment ++ "'")
  else if objectType = "trigger" then
    if !jsTruthy options.parentObject then
      .error "Parent object (table name) is required for trigger comments"
    else
      .ok ("COMMENT ON TRIGGER " ++ objectName ++ " ON " ++ schema ++ "." ++
        options.parentObject.getD "" ++ " IS '" ++ escapedComment ++ "'")
  else if objectType = "constraint" then
    if !jsTruthy options.parentObject then
      .error "Parent object (table name) is required for constraint comments"
    else
      .ok ("COMMENT ON CONSTRAINT " ++ objectName ++ " ON " ++ schema ++ "." ++
        options.parentObject.getD "" ++ " IS '" ++ escapedComment ++ "'")
  else if objectType = "index" then
    .ok ("COMMENT ON INDEX " ++ schema ++ "." ++ objectName ++ " IS '" ++ escapedComment ++ "'")
  else if objectType = "sequence" then
    .ok ("COMMENT ON SEQUENCE " ++ schema ++ "." ++ objectName ++ " IS '" ++ escapedComment ++ "'")
  else .error ("Unsupported object type: " ++ objectType)

/-- The lookup query `getDatabaseComment` builds: again the caller-supplied
schema, object name, parent object and parameters are interpolated into the
SQL text (as quoted string literals), with **no** positional parameters and no
escaping. -/
def getDatabaseCommentSql (objectType objectName : String) (options : CommentOpts) :
    Except String String :=
  let schema := options.schema.getD "public"
  if objectType = "table" then
    .ok ("SELECT obj_description(to_regclass('" ++ schema ++ "." ++ objectName ++
      "')::oid) AS comment")
  else if objectType = "column" then
    if !jsTruthy options.parentObject then
      .error "Parent object (table name) is required for column comments"
    else
      .ok ("SELECT col_description(\n(SELECT oid FROM pg_class WHERE relname = '" ++ objectName ++
        "' AND relnamespace = (SELECT oid FROM pg_namespace WHERE nspname = '" ++ schema ++
        "')),\n(SELECT attnum FROM pg_attribute WHERE attrelid = (SELECT oid FROM pg_class WHERE relname = '" ++
        options.parentObject.getD "" ++
        "' AND relnamespace = (SELECT oid FROM pg_namespace WHERE nspname = '" ++ schema ++
        "')) AND attname = '" ++ objectName ++ "')\n) AS comment")
  else if objectType = "function" then
    let params := if jsTruthy options.parameters then "(" ++ options.parameters.getD "" ++ ")" else ""
    .ok ("SELECT pg_description.description AS comment\nFROM pg_proc\nJOIN pg_namespace ON pg_proc.pronamespace = pg_namespace.oid\nJOIN pg_description ON pg_description.objoid = pg_proc.oid\nWHERE pg_proc.proname = '" ++
      objectName ++ "'\nAND pg_namespace.nspname = '" ++ schema ++ "'" ++
      (if params = "" then "" else ""))
  else if objectType = "policy" then
    if !jsTruthy options.parentObject then
      .error "Parent object (table name) is required for policy comments"
    else
      .ok ("SELECT pg_description.description AS comment\nFROM pg_policy\nJOIN pg_class ON pg_policy.polrelid = pg_class.oid\nJOIN pg_namespace ON pg_class.relnamespace = pg_namespace.oid\nJOIN pg_description ON pg_description.objoid = pg_policy.oid\nWHERE pg_policy.polname = '" ++
        objectName ++ "'\nAND pg_class.relname = '" ++ options.parentObject.getD "" ++
        "'\nAND pg_namespace.nspname = '" ++ schema ++ "'")
  else if objectType = "trigger" then
    if !jsTruthy options.parentObject then
      .error "Parent object (table name) is required for trigger comments"
    else
      .ok ("SELECT pg_description.description AS comment\nFROM pg_trigger\nJOIN pg_class ON pg_trigger.tgrelid = pg_class.oid\nJOIN pg_namespace ON pg_class.relnamespace = pg_namespace.oid\nJOIN pg_description ON pg_description.objoid = pg_trigger.oid\nWHERE pg_trigger.tgname = '" ++
        objectName ++ "'\nAND pg_class.relname = '" ++ options.parentObject.getD "" ++
        "'\nAND pg_namespace.nspname = '" ++ schema ++ "'")
  else if objectType = "constraint" then
    if !jsTruthy options.parentObject then
      .error "Parent object (table name) is required for constraint comments"
    else
      .ok ("SELECT pg_description.description AS comment\nFROM pg_constraint\nJOIN pg_class ON pg_constraint.conrelid = pg_class.oid\nJOIN pg_namespace ON pg_class.relnamespace = pg_namespace.oid\nJOIN pg_description ON pg_description.objoid = pg_constraint.oid\nWHERE pg_constraint.conname = '" ++
        objectName ++ "'\nAND pg_class.relname = '" ++ options.parentObject.getD "" ++
        "'\nAND pg_namespace.nspname = '" ++ schema ++ "'")
  else if objectType = "index" then
    .ok ("SELECT pg_description.description AS comment\nFROM pg_index\nJOIN pg_class idx ON pg_index.indexrelid = idx.oid\nJOIN pg_namespace ON idx.relnamespace = pg_namespace.oid\nJOIN pg_description ON pg_description.objoid = idx.oid\nWHERE idx.relname = '" ++
      objectName ++ "'\nAND pg_namespace.nspname = '" ++ schema ++ "'")
  else if objectType = "sequence" then
    .ok ("SELECT obj_description(to_regclass('" ++ schema ++ "." ++ objectName ++
      "')::oid) AS comment")
  else .error ("Unsupported object type: " ++ objectType)

/-! ## Trace-level embedding of the connection lifecycle

`DatabaseConnection` (src/utils/connection.ts is a collaborator) exposes
`connect` / `query` / `disconnect`; for the release-on-all-paths invariant we
record these as events and let an oracle choose each call's outcome. -/

/-- One observable database-connection event of a tool operation. -/
inductive DbEvent
  | connect
  | connectFail
  | query (sql : String) (params : List String)
  | disconnect
deriving DecidableEq

/-- Oracle for the `DatabaseConnection` collaborator: the outcome of the
call's `connect`, and the outcome of the `i`-th `query` the operation issues
(a rowset, abstracted as a list of serialized rows, or a thrown error). -/
structure DbOracle where
  connectOutcome : Except String Unit
  queryOutcome : Nat → Except String (List String)

/-- A database-interacting computation: threads the event trace, and either
produces a value or an in-flight exception (the trace is kept either way). -/
def DbM (A : Type) := List DbEvent → Except String A × List DbEvent

def dpure {A : Type} (a : A) : DbM A := fun evs => (.ok a, evs)

def dbind {A B : Type} (m : DbM A) (f : A → DbM B) : DbM B := fun evs =>
  match m evs with
  | (.ok a, evs1) => f a evs1
  | (.error e, evs1) => (.error e, evs1)

instance : Monad DbM where
  pure := dpure
  bind := dbind

/-- A thrown exception. -/
def dthrow {A : Type} (e : String) : DbM A := fun evs => (.error e, evs)

/-- `await db.connect(connectionString)`: emits `connect` on success and
`connectFail` when the oracle makes the call throw. -/
def dbConnect (o : DbOracle) (_connectionString : String) : DbM Unit := fun evs =>
  match o.connectOutcome with
  | .ok _ => (.ok (), evs ++ [.connect])
  | .error e => (.error e, evs ++ [.connectFail])

/-- Number of queries issued so far (used to index the oracle). -/
def queryCount (evs : List DbEvent) : Nat :=
  evs.countP (fun e => match e with | .query _ _ => true | _ => false)

/-- `await db.query(sql, params)`. -/
def dbQuery (o : DbOracle) (sql : String) (params : List String) :
    DbM (List String) := fun evs =>
  (o.queryOutcome (queryCount evs), evs ++ [.query sql params])

/-- `await db.disconnect()` (modelled as never throwing). -/
def dbDisconnect : DbM Unit := fun evs => (.ok (), evs ++ [.disconnect])

/-- `try { body } catch (e) { handler } finally { fin }` with JS semantics:
`fin` always runs last; an exception from `fin` replaces the pending result;
otherwise the body's (or handler's) result — value or exception — stands. -/
def dTryCatchFinally {A : Type} (body : DbM A) (handler : String → DbM A)
    (fin : DbM Unit) : DbM A := fun evs =>
  match body evs with
  | (.ok a, evs1) =>
      (match fin evs1 with
       | (.ok _, evs2) => (.ok a, evs2)
       | (.error ef, evs2) => (.error ef, evs2))
  | (.error e, evs1) =>
      match handler e evs1 with
      | (r2, evs2) =>
          match fin evs2 with
          | (.ok _, evs3) => (r2, evs3)
          | (.error ef, evs3) => (.error ef, evs3)

/-- `try { body } finally { fin }` (no catch): the body's exception is
re-raised after `fin`. -/
def dTryFinally {A : Type} (body : DbM A) (fin : DbM Unit) : DbM A :=
  dTryCatchFinally body (fun e => dthrow e) fin

/-- Abstraction of `JSON.stringify` on a rowset. -/
def renderRows (rows : List String) : String := "[" ++ joinComma rows ++ "]"

/-! ## Run-level embeddings (connect / query / disconnect traces) -/

/-- `_getFunctions` (src/tools/functions.ts): `try { connect; build query;
query } catch { failure result } finally { disconnect }`.  The `schema`
default parameter (`'public'`) applies when the caller passes `undefined`. -/
def getFunctionsRun (o : DbOracle) (connectionString : String)
    (functionName : Option String) (schemaArg : Option String) : DbM FunctionResult :=
  let schema := schemaArg.getD "public"
  dTryCatchFinally
    (dbind (dbConnect o connectionString) (fun _ =>
      let qp := getFunctionsQuery functionName schema
      dbind (dbQuery o qp.1 qp.2) (fun functions =>
        dpure
          { success := true,
            message :=
              (match functionName with
                | some fn => "Function information for " ++ fn
                | none =>
                    "Found " ++ toString functions.length ++ " functions in schema " ++ schema),
            details := some (renderRows functions) })))
    (fun e =>
      dpure
        { success := false, message := "Failed to get function information: " ++ e,
          details := none })
    dbDisconnect

/-- `_getRLSPolicies` (src/tools/functions.ts), same structure as
`_getFunctions`. -/
def getRLSPoliciesRun (o : DbOracle) (connectionString : String)
    (tableName : Option String) (schemaArg : Option String) : DbM FunctionResult :=
  let schema := schemaArg.getD "public"
  dTryCatchFinally
    (dbind (dbConnect o connectionString) (fun _ =>
      let qp := getRLSPoliciesQuery tableName schema
      dbind (dbQuery o qp.1 qp.2) (fun policies =>
        dpure
          { success := true,
            message :=
              (match tableName with
                | some t => "Policies for table " ++ schema ++ "." ++ t
                | none => "All policies in schema " ++ schema),
            details := some (renderRows policies) })))
    (fun e =>
      dpure
        { success := false, message := "Failed to get policies: " ++ e, details := none })
    dbDisconnect

/-- `setDatabaseComment` (src/tools/comment.ts): `try { connect; build the
COMMENT ON statement (may throw); query } catch { failure result } finally
{ disconnect }`.  The serialized success `details` payload is abstracted. -/
def setDatabaseCommentRun (o : DbOracle)
    (connectionString objectType objectName comment : String) (options : CommentOpts) :
    DbM FunctionResult :=
  dTryCatchFinally
    (dbind (dbConnect o connectionString) (fun _ =>
      match setDatabaseCommentSql objectType objectName comment options with
      | .error e => dthrow e
      | .ok sql =>
          dbind (dbQuery o sql []) (fun _ =>
            dpure
              { success := true,
                message := "Comment set successfully on " ++ objectType ++ " " ++ objectName,
                details := some (joinComma [objectType, objectName, options.schema.getD "public"]) })))
    (fun e =>
      dpure { success := false, message := "Failed to set comment: " ++ e, details := none })
    dbDisconnect

/-- `removeDatabaseComment` (src/tools/comment.ts): literally
`setDatabaseComment(connectionString, objectType, objectName, 'NULL', options)`
— the four-character string `NULL`, not SQL `NULL`. -/
def removeDatabaseCommentRun (o : DbOracle)
    (connectionString objectType objectName : String) (options : CommentOpts) :
    DbM FunctionResult :=
  setDatabaseCommentRun o connectionString objectType objectName "NULL" options

/-- `getDatabaseComment` (src/tools/comment.ts): `try { connect; build lookup
query (may throw); query } catch { failure result } finally { disconnect }`;
the query is issued with **no** parameter bindings. -/
def getDatabaseCommentRun (o : DbOracle)
    (connectionString objectType objectName : String) (options : CommentOpts) :
    DbM FunctionResult :=
  dTryCatchFinally
    (dbind (dbConnect o connectionString) (fun _ =>
      match getDatabaseCommentSql objectType objectName options with
      | .error e => dthrow e
      | .ok sql =>
          dbind (dbQuery o sql []) (fun rows =>
            dpure
              { success := true,
                message :=
                  "Comment retrieved successfully for " ++ objectType ++ " " ++ objectName,
                details := some (renderRows rows) })))
    (fun e =>
      dpure { success := false, message := "Failed to get comment: " ++ e, details := none })
    dbDisconnect

/-- `result[0].field` on a rowset: throws a `TypeError` when the rowset is
empty, otherwise yields the (abstracted) row. -/
def jsRow0 (rows : List String) (fieldName : String) : DbM String :=
  match rows with
  | [] =>
      dthrow ("TypeError: Cannot read properties of undefined (reading '" ++ fieldName ++ "')")
  | r :: _ => dpure r

/-- `getVersion` (src/tools/analyze.ts). -/
def getVersionM (o : DbOracle) : DbM String :=
  dbind (dbQuery o "SELECT version()" []) (fun result => jsRow0 result "version")

/-- `getSettings` (src/tools/analyze.ts); the reduction of rows to a record is
abstracted to the rowset itself. -/
def getSettingsM (o : DbOracle) : DbM (List String) :=
  dbind
    (dbQuery o "SELECT name, setting, unit FROM pg_settings WHERE name IN ($1, $2, $3, $4, $5)"
      ["max_connections", "shared_buffers", "work_mem", "maintenance_work_mem",
        "effective_cache_size"])
    (fun result => dpure result)

/-- `getMetrics` (src/tools/analyze.ts): five queries in order (connections,
active queries, raw cache stats, cache-hit ratio, table sizes); the
`connections[0].count` / `activeQueries[0].count` accesses at the end can
throw on an empty rowset, while `rawStats[0]` (only logged) and
`cacheHit[0]?.ratio ?? 0` (optional chaining) cannot.  Numeric parsing is
value-abstracted. -/
def getMetricsM (o : DbOracle) : DbM (List String) :=
  dbind (dbQuery o "SELECT count(*) FROM pg_stat_activity" []) (fun connections =>
  dbind (dbQuery o "SELECT count(*) FROM pg_stat_activity WHERE state = 'active'" [])
    (fun activeQueries =>
  dbind (dbQuery o "SELECT\ndatname,\nCOALESCE(blks_hit, 0) as hits,\nCOALESCE(blks_read, 0) as reads\nFROM pg_stat_database\nWHERE datname = current_database()" [])
    (fun _rawStats =>
  dbind (dbQuery o "WITH stats AS (\nSELECT\nCOALESCE(blks_hit, 0) as hits,\nCOALESCE(blks_read, 0) as reads\nFROM pg_stat_database\nWHERE datname = current_database()\n)\nSELECT\nCASE\nWHEN (hits + reads) = 0 THEN 0\nELSE ROUND((hits::float / (hits + reads)::float)::numeric, 2)\nEND as ratio\nFROM stats" [])
    (fun _cacheHit =>
  dbind (dbQuery o "SELECT\ntablename,\npg_size_pretty(pg_table_size(schemaname || '.' || tablename)) as size\nFROM pg_tables\nWHERE schemaname = 'public'" [])
    (fun tableSizes =>
  dbind (jsRow0 connections "count") (fun c =>
  dbind (jsRow0 activeQueries "count") (fun a =>
  dpure (c :: a :: tableSizes))))))))

/-- `generateRecommendations` (src/tools/analyze.ts): only the `security`
branch touches the database (superuser count, then `SHOW ssl`, each with a
throwing `[0]` access); the recommendation strings themselves are
value-abstracted. -/
def generateRecommendationsM (o : DbOracle) (analysisType : String) : DbM (List String) :=
  if analysisType = "security" then
    dbind (dbQuery o "SELECT count(*) FROM pg_user WHERE usesuper = true" [])
      (fun superusers =>
    dbind (jsRow0 superusers "count") (fun _ =>
    dbind (dbQuery o "SHOW ssl" []) (fun ssl =>
    dbind (jsRow0 ssl "ssl") (fun _ =>
    dpure []))))
  else dpure []

/-- The body of `analyzeDatabase`'s `try` block (src/tools/analyze.ts); the
assembled `AnalysisResult` is abstracted to a serialized string. -/
def analyzeBody (o : DbOracle) (analysisType : String) : DbM String :=
  dbind (getVersionM o) (fun version =>
  dbind (getSettingsM o) (fun _settings =>
  dbind (getMetricsM o) (fun metrics =>
  dbind (generateRecommendationsM o analysisType) (fun recommendations =>
  dpure (joinComma (version :: (metrics ++ recommendations)))))))

/-- `analyzeDatabase` (src/tools/analyze.ts): **`connect` happens before the
`try`** (a connect failure propagates without a `disconnect`, and without a
handle having been acquired); the body runs under `try \x7b ... \x7d finally
\x7b await db.disconnect() \x7d` with no catch, so a body exception is
re-raised after the disconnect. -/
def analyzeDatabaseRun (o : DbOracle) (connectionString : String)
    (analysisType : String) : DbM String :=
  dbind (dbConnect o connectionString) (fun _ =>
    dTryFinally (analyzeBody o analysisType) dbDisconnect)

/-! ## Handle accounting -/

/-- Whether a handle is held after one more event. -/
def heldStep (held : Bool) (e : DbEvent) : Bool :=
  match e with
  | .connect => true
  | .disconnect => false
  | _ => held

/-- Whether a connection handle is still held after a trace. -/
def heldAfter (evs : List DbEvent) : Bool := evs.foldl heldStep false

theorem heldAfter_append_disconnect (l : List DbEvent) :
    heldAfter (l ++ [DbEvent.disconnect]) = false := by
  unfold heldAfter
  rw [List.foldl_append]
  rfl

/-- Any `try/catch/finally` whose `finally` is `db.disconnect()` ends its
trace with a `disconnect` event, hence holds no handle afterwards. -/
theorem heldAfter_dTryCatchFinally {A : Type} (body : DbM A)
    (handler : String → DbM A) (evs : List DbEvent) :
    heldAfter ((dTryCatchFinally body handler dbDisconnect) evs).2 = false := by
  unfold dTryCatchFinally dbDisconnect
  rcases hb : body evs with ⟨rb, evs1⟩
  cases rb with
  | ok a => simpa using heldAfter_append_disconnect evs1
  | error e =>
      rcases hh : handler e evs1 with ⟨r2, evs2⟩
      cases r2 <;> simp [hh, heldAfter_append_disconnect]

/-! ## String-containment helpers -/

/-- `a` occurs as a contiguous substring of `b`. -/
def strInfix (a b : String) : Prop := a.data <:+: b.data

instance (a b : String) : Decidable (strInfix a b) := by
  unfold strInfix; infer_instance

theorem strInfix_appendContext (a m p s : String) (h : strInfix a m) :
    strInfix a (p ++ m ++ s) := by
  unfold strInfix at h ⊢
  rw [String.data_append, String.data_append]
  exact h.trans (List.infix_append p.data m.data s.data)

theorem strInfix_mem_joinComma (a : String) :
    ∀ l : List String, a ∈ l → strInfix a (joinComma l) := by
  intro l
  induction l with
  | nil => intro h; cases h
  | cons b t ih =>
      intro h
      cases t with
      | nil =>
          have hb : a = b := by simpa using h
          subst hb
          exact List.infix_rfl
      | cons c t2 =>
          rcases List.mem_cons.mp h with rfl | hmem
          · show strInfix a (a ++ ", " ++ joinComma (c :: t2))
            unfold strInfix
            rw [String.data_append, String.data_append]
            exact ⟨[], ", ".data ++ (joinComma (c :: t2)).data, by simp⟩
          · have hrec := ih hmem
            show strInfix a (b ++ ", " ++ joinComma (c :: t2))
            unfold strInfix at hrec ⊢
            rw [String.data_append, String.data_append]
            rcases hrec with ⟨u, v, huv⟩
            exact ⟨b.data ++ ", ".data ++ u, v, by rw [← huv]; simp⟩

/-! ## Claim C1 -/

/-- C1: For every tool call handled by the Dispatch Server — whether the
tool's `execute` succeeds, fails validation, or throws — exactly one result
envelope is returned: `handleCallTool` is a total function into `ToolOutput`;
when lookup or execution throws, the handler returns the
`isError: true` envelope `Error: <original message>` (no exception passes the
boundary), and when the tool returns an envelope the dispatcher returns it
unchanged, never synthesizing success. -/
theorem C1_dispatch_single_envelope (st : ServerState) (cfg : CliEnvConfig)
    (toolName : String) (args : ToolArgs) :
    (∀ out : ToolOutput,
        callToolAttempt st cfg toolName args = .ok out →
          handleCallTool st cfg toolName args = out) ∧
    (∀ msg : String,
        callToolAttempt st cfg toolName args = .error msg →
          handleCallTool st cfg toolName args = errEnv ("Error: " ++ msg)) := by
  constructor
  · intro out h
    unfold handleCallTool
    rw [h]
  · intro msg h
    unfold handleCallTool
    rw [h]

/-- A minimal tool whose `execute` returns a fixed success envelope, for
closed instantiations of the dispatch theorems. -/
def demoEchoTool : PostgresTool :=
  { name := "demo_echo",
    execute := fun _ _ => .ok { content := [{ type := "text", text := "pong" }] } }

/-- A server assembled from `demoEchoTool` with no tools-config file. -/
def demoServer : ServerState :=
  ServerState.ofConfig [demoEchoTool] ToolsConfigSource.noPath

theorem C1_dispatch_single_envelope_witness :
    handleCallTool demoServer {} "demo_echo" {} =
        { content := [{ type := "text", text := "pong" }] } ∧
      handleCallTool demoServer {} "missing_tool" {} =
        errEnv ("Error: " ++ notFoundMsg "missing_tool") :=
  ⟨(C1_dispatch_single_envelope demoServer {} "demo_echo" {}).1 _ rfl,
   (C1_dispatch_single_envelope demoServer {} "missing_tool" {}).2 _ rfl⟩

/-! ## Claim C2 -/

/-- Replace every tool's `execute` using the name-indexed generator `g`
(names untouched); used to state that dispatch on a miss is independent of
every tool's execution logic. -/
def withExecute (g : String → ToolArgs → ConnResolver → Except String ToolOutput)
    (t : PostgresTool) : PostgresTool :=
  { name := t.name, execute := g t.name }

/-- `withExecute` applied across a server state. -/
def mapExecutes (g : String → ToolArgs → ConnResolver → Except String ToolOutput)
    (st : ServerState) : ServerState :=
  { availableToolsList := st.availableToolsList.map (withExecute g),
    enabledTools := st.enabledTools.map (withExecute g) }

theorem any_name_map_withExecute (g : String → ToolArgs → ConnResolver → Except String ToolOutput)
    (l : List PostgresTool) (n : String) :
    (l.map (withExecute g)).any (fun t => t.name = n) = l.any (fun t => t.name = n) := by
  rw [List.any_map]
  rfl

theorem enabledLookup_map_withExecute_none
    (g : String → ToolArgs → ConnResolver → Except String ToolOutput)
    (l : List PostgresTool) (n : String) (h : enabledLookup l n = none) :
    enabledLookup (l.map (withExecute g)) n = none := by
  rw [enabledLookup_eq_none_iff] at h ⊢
  intro t ht
  rcases List.mem_map.mp ht with ⟨t0, ht0, rfl⟩
  exact h t0 ht0

theorem enabledLookup_filtered_not_in_allowlist (av : List PostgresTool)
    (L : List String) (n : String) (hn : n ∉ L) :
    enabledLookup (loadAndFilterTools av (ToolsConfigSource.valid L)).enabledTools n = none := by
  rw [enabledLookup_eq_none_iff]
  intro t ht
  have hmem := List.mem_filter.mp ht
  intro hname
  have : t.name ∈ jsSetList L := List.elem_iff.mp hmem.2
  rw [mem_jsSetList] at this
  rw [hname] at this
  exact hn this

theorem enabledLookup_filtered_not_in_registry (av : List PostgresTool)
    (L : List String) (n : String)
    (hreg : av.any (fun t => t.name = n) = false) :
    enabledLookup (loadAndFilterTools av (ToolsConfigSource.valid L)).enabledTools n = none := by
  rw [enabledLookup_eq_none_iff]
  intro t ht
  have hmem := List.mem_filter.mp ht
  intro hname
  have hall : ∀ x ∈ av, ¬(x.name = n) := by
    intro x hx
    rw [List.any_eq_false] at hreg
    have hx2 := hreg x hx
    simpa using hx2
  exact hall t hmem.1 hname

/-- C2: a call for a tool name outside the Enabled-Tool Set returns an
`isError: true` envelope; when the name is absent from the Registry the
message is the not-found one, and when the name is in the Registry but
excluded by the allow-list the message is the distinct "available but not
enabled" one and no tool's `execute` is invoked (the result is unchanged under
replacing every tool's execution logic). -/
theorem C2_unknown_or_disabled_tool (av : List PostgresTool) (L : List String)
    (cfg : CliEnvConfig) (args : ToolArgs) (toolName : String) :
    (av.any (fun t => t.name = toolName) = false →
      handleCallTool (ServerState.ofConfig av (ToolsConfigSource.valid L)) cfg toolName args =
          errEnv ("Error: " ++ notFoundMsg toolName) ∧
        (handleCallTool (ServerState.ofConfig av (ToolsConfigSource.valid L)) cfg toolName
            args).isError = true) ∧
    (av.any (fun t => t.name = toolName) = true → toolName ∉ L →
      handleCallTool (ServerState.ofConfig av (ToolsConfigSource.valid L)) cfg toolName args =
          errEnv ("Error: " ++ notEnabledMsg toolName) ∧
        (handleCallTool (ServerState.ofConfig av (ToolsConfigSource.valid L)) cfg toolName
            args).isError = true ∧
        (∀ g : String → ToolArgs → ConnResolver → Except String ToolOutput,
          handleCallTool (mapExecutes g (ServerState.ofConfig av (ToolsConfigSource.valid L)))
              cfg toolName args =
            handleCallTool (ServerState.ofConfig av (ToolsConfigSource.valid L)) cfg toolName
              args)) ∧
    notEnabledMsg toolName ≠ notFoundMsg toolName := by
  refine ⟨?_, ?_, ?_⟩
  · intro hreg
    have hlook := enabledLookup_filtered_not_in_registry av L toolName hreg
    have hco : callToolAttempt (ServerState.ofConfig av (ToolsConfigSource.valid L)) cfg toolName
        args = .error (notFoundMsg toolName) := by
      unfold callToolAttempt ServerState.ofConfig
      rw [show (⟨av, (loadAndFilterTools av (ToolsConfigSource.valid L)).enabledTools⟩ :
        ServerState).enabledTools = (loadAndFilterTools av (ToolsConfigSource.valid L)).enabledTools
        from rfl]
      rw [hlook]
      simp [hreg]
    constructor
    · unfold handleCallTool
      rw [hco]
    · unfold handleCallTool
      rw [hco]
      rfl
  · intro hreg hnotL
    have hlook := enabledLookup_filtered_not_in_allowlist av L toolName hnotL
    have hco : callToolAttempt (ServerState.ofConfig av (ToolsConfigSource.valid L)) cfg toolName
        args = .error (notEnabledMsg toolName) := by
      unfold callToolAttempt ServerState.ofConfig
      rw [show (⟨av, (loadAndFilterTools av (ToolsConfigSource.valid L)).enabledTools⟩ :
        ServerState).enabledTools = (loadAndFilterTools av (ToolsConfigSource.valid L)).enabledTools
        from rfl]
      rw [hlook]
      simp [hreg]
    refine ⟨by unfold handleCallTool; rw [hco], by unfold handleCallTool; rw [hco]; rfl, ?_⟩
    intro g
    have hlook2 := enabledLookup_map_withExecute_none g _ _ hlook
    have hco2 : callToolAttempt
        (mapExecutes g (ServerState.ofConfig av (ToolsConfigSource.valid L))) cfg toolName args =
        .error (notEnabledMsg toolName) := by
      unfold callToolAttempt mapExecutes ServerState.ofConfig
      simp only []
      rw [hlook2]
      rw [any_name_map_withExecute]
      simp [hreg]
    unfold handleCallTool
    rw [hco, hco2]
  · intro h
    have hl := congrArg String.length h
    rw [notEnabledMsg, notFoundMsg] at hl
    rw [String.length_append, String.length_append, String.length_append,
      String.length_append] at hl
    have h6 : ("Tool \"" : String).length = ("Tool '" : String).length := by decide
    have hsuf :
        ("\" is available but not enabled by the current server configuration." : String).length ≠
          ("' is not enabled or does not exist." : String).length := by decide
    omega

theorem C2_unknown_or_disabled_tool_witness :
    handleCallTool (ServerState.ofConfig allToolsDemo
          (ToolsConfigSource.valid ["pg_analyze_database"])) {} "no_such_tool" {} =
        errEnv ("Error: " ++ notFoundMsg "no_such_tool") ∧
      handleCallTool (ServerState.ofConfig allToolsDemo
          (ToolsConfigSource.valid ["pg_analyze_database"])) {} "pg_get_functions" {} =
        errEnv ("Error: " ++ notEnabledMsg "pg_get_functions") :=
  ⟨((C2_unknown_or_disabled_tool allToolsDemo ["pg_analyze_database"] {} {} "no_such_tool").1
      (by decide)).1,
   (((C2_unknown_or_disabled_tool allToolsDemo ["pg_analyze_database"] {} {}
      "pg_get_functions").2.1 (by decide) (by decide)).1)⟩

/-! ## Claim C3 -/

/-- C3: for every allow-list `L` the Enabled-Tool Set computed at startup is
exactly the tools of the Registry whose names are in `L` — a filter, hence a
subsequence of the Registry preserving its order; the names of `L` no
registered tool bears end up only in the (non-fatal) warning list; and with no
allow-list the Enabled-Tool Set is the full Registry. -/
theorem C3_enablement_filtering (av : List PostgresTool) (L : List String) :
    (loadAndFilterTools av (ToolsConfigSource.valid L)).enabledTools =
        av.filter (fun t => L.contains t.name) ∧
      List.Sublist (loadAndFilterTools av (ToolsConfigSource.valid L)).enabledTools av ∧
      (∀ t, t ∈ (loadAndFilterTools av (ToolsConfigSource.valid L)).enabledTools ↔
        t ∈ av ∧ t.name ∈ L) ∧
      (loadAndFilterTools av (ToolsConfigSource.valid L)).warnings =
        (jsSetList L).filter (fun n => !(av.any (fun t => t.name = n))) ∧
      (loadAndFilterTools av ToolsConfigSource.noPath).enabledTools = av := by
  have hfilter : (loadAndFilterTools av (ToolsConfigSource.valid L)).enabledTools =
      av.filter (fun t => L.contains t.name) := by
    show av.filter (fun t => (jsSetList L).contains t.name) = _
    apply List.filter_congr
    intro t _
    exact contains_jsSetList L t.name
  refine ⟨hfilter, ?_, ?_, rfl, rfl⟩
  · rw [hfilter]
    exact List.filter_sublist av
  · intro t
    rw [hfilter]
    rw [List.mem_filter]
    constructor
    · rintro ⟨h1, h2⟩
      exact ⟨h1, List.elem_iff.mp h2⟩
    · rintro ⟨h1, h2⟩
      exact ⟨h1, List.elem_eq_true_of_mem h2⟩

/-! ## Claim C4 -/

/-- The enablement configuration of the C4 scenario:
`{"enabledTools": ["pg_manage_functions"]}`. -/
def c4Config : ToolsConfigSource := ToolsConfigSource.valid ["pg_manage_functions"]

/-- The server of the C4 scenario: the registry `src/index.ts` assembles,
filtered by the scenario's enablement file. -/
def c4Server : ServerState := ServerState.ofConfig allToolsDemo c4Config

/-- C4 counterexample: with the enablement file
`{"enabledTools":["pg_manage_functions"]}` and the Registry the server is
assembled with, `listTools()` does **not** return one descriptor named
`pg_manage_functions` — it returns none at all, because `src/index.ts` never
registers the consolidated `pg_manage_functions` tool in `allTools` (it
registers the granular `pg_get_functions` / `pg_create_function` /
`pg_drop_function` instead). -/
theorem C4_scenario_counterexample :
    ¬((listToolNames c4Server).length = 1 ∧
        listToolNames c4Server = ["pg_manage_functions"]) ∧
      listToolNames c4Server = [] := by
  constructor
  · intro h
    have h2 := h.2
    rw [show listToolNames c4Server = [] from rfl] at h2
    cases h2
  · rfl

/-- C4 amended: with that enablement file the Enabled-Tool Set is empty —
`listTools()` returns zero descriptors — and the name `pg_manage_functions`
is reported in the non-fatal warning list as not found among the available
tools; an allow-list naming a registered tool (e.g. `pg_get_functions`)
does yield exactly that one descriptor. -/
theorem C4_scenario_amended :
    listToolNames c4Server = [] ∧
      (loadAndFilterTools allToolsDemo c4Config).warnings = ["pg_manage_functions"] ∧
      listToolNames (ServerState.ofConfig allToolsDemo
        (ToolsConfigSource.valid ["pg_get_functions"])) = ["pg_get_functions"] := by
  exact ⟨rfl, rfl, rfl⟩

/-! ## Claims C5 and C6: the wide-tool operation router -/

theorem manageFunctionsExecute_ok (db : FunctionsDb) (args : ToolArgs)
    (resolve : ConnResolver) (cs : String)
    (hconn : resolve args.connectionString = .ok cs) :
    manageFunctionsExecute db args resolve = .ok (manageFunctionsBody db args cs) := by
  unfold manageFunctionsExecute
  rw [hconn]
  rfl

theorem manageRLSExecute_ok (db : RlsDb) (args : ToolArgs)
    (resolve : ConnResolver) (cs : String)
    (hconn : resolve args.connectionString = .ok cs) :
    manageRLSExecute db args resolve = .ok (manageRLSBody db args cs) := by
  unfold manageRLSExecute
  rw [hconn]
  rfl

theorem manageFunctionsExecute_throw (db : FunctionsDb) (args : ToolArgs)
    (resolve : ConnResolver) (e : String)
    (hconn : resolve args.connectionString = .error e) :
    manageFunctionsExecute db args resolve = .error e := by
  unfold manageFunctionsExecute
  rw [hconn]
  rfl

theorem manageFunctionsBody_unknownOp (db : FunctionsDb) (args : ToolArgs) (cs : String)
    (hop : opRender args.operation ∉ (["get", "create", "drop"] : List String)) :
    manageFunctionsBody db args cs = errEnv (fnUnknownOpMsg args.operation) := by
  have hg : ¬(args.operation = some "get") := by
    intro h; rw [h] at hop; exact hop (by simp [opRender])
  have hc : ¬(args.operation = some "create") := by
    intro h; rw [h] at hop; exact hop (by simp [opRender])
  have hd : ¬(args.operation = some "drop") := by
    intro h; rw [h] at hop; exact hop (by simp [opRender])
  simp [manageFunctionsBody, hg, hc, hd]

theorem manageRLSBody_unknownOp (db : RlsDb) (args : ToolArgs) (cs : String)
    (hop : opRender args.operation ∉
      (["enable", "disable", "create_policy", "edit_policy", "drop_policy", "get_policies"] :
        List String)) :
    manageRLSBody db args cs = errEnv (rlsUnknownOpMsg args.operation) := by
  have h1 : ¬(args.operation = some "enable") := by
    intro h; rw [h] at hop; exact hop (by simp [opRender])
  have h2 : ¬(args.operation = some "disable") := by
    intro h; rw [h] at hop; exact hop (by simp [opRender])
  have h3 : ¬(args.operation = some "create_policy") := by
    intro h; rw [h] at hop; exact hop (by simp [opRender])
  have h4 : ¬(args.operation = some "edit_policy") := by
    intro h; rw [h] at hop; exact hop (by simp [opRender])
  have h5 : ¬(args.operation = some "drop_policy") := by
    intro h; rw [h] at hop; exact hop (by simp [opRender])
  have h6 : ¬(args.operation = some "get_policies") := by
    intro h; rw [h] at hop; exact hop (by simp [opRender])
  simp [manageRLSBody, h1, h2, h3, h4, h5, h6]

/-- C5 amended: for each wide tool, whenever the connection string resolves,
an `operation` outside the tool's enumerated set yields the `isError: true`
envelope whose message names the offending value and enumerates the complete
valid set (`get, create, drop`, resp. `enable, disable, create_policy,
edit_policy, drop_policy, get_policies`), and no database operation is
executed — the result is the same under every database-helper behaviour. -/
theorem C5_amended_unknown_operation (fdb : FunctionsDb) (rdb : RlsDb)
    (resolve : ConnResolver) (args : ToolArgs) (cs : String)
    (hconn : resolve args.connectionString = .ok cs) :
    (opRender args.operation ∉ (["get", "create", "drop"] : List String) →
      manageFunctionsExecute fdb args resolve = .ok (errEnv (fnUnknownOpMsg args.operation)) ∧
        ∀ fdb' : FunctionsDb,
          manageFunctionsExecute fdb' args resolve = manageFunctionsExecute fdb args resolve) ∧
    (opRender args.operation ∉
        (["enable", "disable", "create_policy", "edit_policy", "drop_policy", "get_policies"] :
          List String) →
      manageRLSExecute rdb args resolve = .ok (errEnv (rlsUnknownOpMsg args.operation)) ∧
        ∀ rdb' : RlsDb,
          manageRLSExecute rdb' args resolve = manageRLSExecute rdb args resolve) := by
  constructor
  · intro hop
    have hmain : ∀ db : FunctionsDb,
        manageFunctionsExecute db args resolve = .ok (errEnv (fnUnknownOpMsg args.operation)) := by
      intro db
      rw [manageFunctionsExecute_ok db args resolve cs hconn,
        manageFunctionsBody_unknownOp db args cs hop]
    exact ⟨hmain fdb, fun fdb' => by rw [hmain fdb', hmain fdb]⟩
  · intro hop
    have hmain : ∀ db : RlsDb,
        manageRLSExecute db args resolve = .ok (errEnv (rlsUnknownOpMsg args.operation)) := by
      intro db
      rw [manageRLSExecute_ok db args resolve cs hconn,
        manageRLSBody_unknownOp db args cs hop]
    exact ⟨hmain rdb, fun rdb' => by rw [hmain rdb', hmain rdb]⟩

theorem C5_amended_unknown_operation_witness :
    manageFunctionsExecute trivialFunctionsDb
        { connectionString := some "postgresql://demo", operation := some "explode" }
        (getConnectionString {}) = .ok (errEnv (fnUnknownOpMsg (some "explode"))) ∧
      manageRLSExecute trivialRlsDb
        { connectionString := some "postgresql://demo", operation := some "explode" }
        (getConnectionString {}) = .ok (errEnv (rlsUnknownOpMsg (some "explode"))) :=
  ⟨((C5_amended_unknown_operation trivialFunctionsDb trivialRlsDb (getConnectionString {})
      { connectionString := some "postgresql://demo", operation := some "explode" }
      "postgresql://demo" rfl).1 (by decide)).1,
   ((C5_amended_unknown_operation trivialFunctionsDb trivialRlsDb (getConnectionString {})
      { connectionString := some "postgresql://demo", operation := some "explode" }
      "postgresql://demo" rfl).2 (by decide)).1⟩

/-- The empty CLI/environment configuration: no `--connection-string`, no
`POSTGRES_CONNECTION_STRING`. -/
def emptyCliEnv : CliEnvConfig := {}

/-- A server with the consolidated `pg_manage_functions` tool enabled, for
exercising the wide-tool validation paths through the dispatcher. -/
def manageFnDemoServer : ServerState :=
  ServerState.ofConfig [manageFunctionsToolV trivialFunctionsDb] ToolsConfigSource.noPath

set_option maxRecDepth 8192 in
/-- C5 counterexample: the claim fails as stated, because connection-string
resolution happens **before** operation validation.  With no connection string
configured anywhere and an unknown operation `explode`, the call returns the
connection-configuration error envelope, whose message does not enumerate
`get, create, drop`. -/
theorem C5_counterexample_conn_before_validation :
    manageFunctionsExecute trivialFunctionsDb { operation := some "explode" }
        (getConnectionString emptyCliEnv) = .error noConnStringMsg ∧
      handleCallTool manageFnDemoServer emptyCliEnv "pg_manage_functions"
          { operation := some "explode" } = errEnv ("Error: " ++ noConnStringMsg) ∧
      ¬strInfix "get, create, drop" ("Error: " ++ noConnStringMsg) := by
  refine ⟨rfl, rfl, by decide⟩

theorem manageFunctionsBody_create_missing (db : FunctionsDb) (args : ToolArgs) (cs : String)
    (hop : args.operation = some "create") (hne : missingCreateFields args ≠ []) :
    manageFunctionsBody db args cs = errEnv (createMissingMsg (missingCreateFields args)) := by
  have hg : ¬(args.operation = some "get") := by rw [hop]; decide
  have h1 : (missingCreateFields args).length > 0 := List.length_pos.mpr hne
  simp [manageFunctionsBody, hg, hop, h1]

theorem manageFunctionsBody_drop_missing (db : FunctionsDb) (args : ToolArgs) (cs : String)
    (hop : args.operation = some "drop") (hmiss : jsTruthy args.functionName = false) :
    manageFunctionsBody db args cs =
      errEnv "Error: functionName is required for drop operation" := by
  have hg : ¬(args.operation = some "get") := by rw [hop]; decide
  have hc : ¬(args.operation = some "create") := by rw [hop]; decide
  simp [manageFunctionsBody, hg, hc, hop, hmiss]

theorem manageRLSBody_enable_missing (db : RlsDb) (args : ToolArgs) (cs : String)
    (hop : args.operation = some "enable") (hmiss : jsTruthy args.tableName = false) :
    manageRLSBody db args cs = errEnv "Error: tableName is required for enable operation" := by
  simp [manageRLSBody, hop, hmiss]

theorem manageRLSBody_disable_missing (db : RlsDb) (args : ToolArgs) (cs : String)
    (hop : args.operation = some "disable") (hmiss : jsTruthy args.tableName = false) :
    manageRLSBody db args cs = errEnv "Error: tableName is required for disable operation" := by
  have h1 : ¬(args.operation = some "enable") := by rw [hop]; decide
  simp [manageRLSBody, h1, hop, hmiss]

theorem manageRLSBody_createPolicy_missing (db : RlsDb) (args : ToolArgs) (cs : String)
    (hop : args.operation = some "create_policy")
    (hmiss : jsTruthy args.tableName = false ∨ jsTruthy args.policyName = false ∨
      jsTruthy args.usingExpr = false) :
    manageRLSBody db args cs =
      errEnv "Error: tableName, policyName, and using are required for create_policy operation" := by
  have h1 : ¬(args.operation = some "enable") := by rw [hop]; decide
  have h2 : ¬(args.operation = some "disable") := by rw [hop]; decide
  have hb : (!jsTruthy args.tableName || !jsTruthy args.policyName ||
      !jsTruthy args.usingExpr) = true := by
    rcases hmiss with h | h | h <;> simp [h]
  simp [manageRLSBody, h1, h2, hop, hb]

theorem manageRLSBody_editPolicy_missing (db : RlsDb) (args : ToolArgs) (cs : String)
    (hop : args.operation = some "edit_policy")
    (hmiss : jsTruthy args.tableName = false ∨ jsTruthy args.policyName = false) :
    manageRLSBody db args cs =
      errEnv "Error: tableName and policyName are required for edit_policy operation" := by
  have h1 : ¬(args.operation = some "enable") := by rw [hop]; decide
  have h2 : ¬(args.operation = some "disable") := by rw [hop]; decide
  have h3 : ¬(args.operation = some "create_policy") := by rw [hop]; decide
  have hb : (!jsTruthy args.tableName || !jsTruthy args.policyName) = true := by
    rcases hmiss with h | h <;> simp [h]
  simp [manageRLSBody, h1, h2, h3, hop, hb]

theorem manageRLSBody_dropPolicy_missing (db : RlsDb) (args : ToolArgs) (cs : String)
    (hop : args.operation = some "drop_policy")
    (hmiss : jsTruthy args.tableName = false ∨ jsTruthy args.policyName = false) :
    manageRLSBody db args cs =
      errEnv "Error: tableName and policyName are required for drop_policy operation" := by
  have h1 : ¬(args.operation = some "enable") := by rw [hop]; decide
  have h2 : ¬(args.operation = some "disable") := by rw [hop]; decide
  have h3 : ¬(args.operation = some "create_policy") := by rw [hop]; decide
  have h4 : ¬(args.operation = some "edit_policy") := by rw [hop]; decide
  have hb : (!jsTruthy args.tableName || !jsTruthy args.policyName) = true := by
    rcases hmiss with h | h <;> simp [h]
  simp [manageRLSBody, h1, h2, h3, h4, hop, hb]

/-- C6 amended: provided the connection string resolves, every wide-tool
branch that finds required fields missing returns the single error envelope of
that branch, whose message names every omitted required field: the
`pg_manage_functions` `create` branch lists exactly the omitted fields (each
omitted field name occurs in the message), its `drop` branch and all five
field-guarded `pg_manage_rls` branches name the full required set of the
branch (hence every omitted field) in a fixed message. -/
theorem C6_amended_missing_fields (fdb : FunctionsDb) (rdb : RlsDb)
    (resolve : ConnResolver) (args : ToolArgs) (cs : String)
    (hconn : resolve args.connectionString = .ok cs) :
    (args.operation = some "create" → missingCreateFields args ≠ [] →
      manageFunctionsExecute fdb args resolve =
          .ok (errEnv (createMissingMsg (missingCreateFields args))) ∧
        ∀ f ∈ missingCreateFields args,
          strInfix f (createMissingMsg (missingCreateFields args))) ∧
    (args.operation = some "drop" → jsTruthy args.functionName = false →
      manageFunctionsExecute fdb args resolve =
        .ok (errEnv "Error: functionName is required for drop operation")) ∧
    (args.operation = some "enable" → jsTruthy args.tableName = false →
      manageRLSExecute rdb args resolve =
        .ok (errEnv "Error: tableName is required for enable operation")) ∧
    (args.operation = some "disable" → jsTruthy args.tableName = false →
      manageRLSExecute rdb args resolve =
        .ok (errEnv "Error: tableName is required for disable operation")) ∧
    (args.operation = some "create_policy" →
      (jsTruthy args.tableName = false ∨ jsTruthy args.policyName = false ∨
        jsTruthy args.usingExpr = false) →
      manageRLSExecute rdb args resolve =
        .ok (errEnv
          "Error: tableName, policyName, and using are required for create_policy operation")) ∧
    (args.operation = some "edit_policy" →
      (jsTruthy args.tableName = false ∨ jsTruthy args.policyName = false) →
      manageRLSExecute rdb args resolve =
        .ok (errEnv "Error: tableName and policyName are required for edit_policy operation")) ∧
    (args.operation = some "drop_policy" →
      (jsTruthy args.tableName = false ∨ jsTruthy args.policyName = false) →
      manageRLSExecute rdb args resolve =
        .ok (errEnv "Error: tableName and policyName are required for drop_policy operation")) ∧
    strInfix "functionName" "Error: functionName is required for drop operation" ∧
    strInfix "tableName"
      "Error: tableName, policyName, and using are required for create_policy operation" ∧
    strInfix "policyName"
      "Error: tableName, policyName, and using are required for create_policy operation" ∧
    strInfix "using"
      "Error: tableName, policyName, and using are required for create_policy operation" ∧
    strInfix "tableName"
      "Error: tableName and policyName are required for edit_policy operation" ∧
    strInfix "policyName"
      "Error: tableName and policyName are required for edit_policy operation" := by
  refine ⟨?_, ?_, ?_, ?_, ?_, ?_, ?_, by decide, by decide, by decide, by decide, by decide,
    by decide⟩
  · intro hop hne
    constructor
    · rw [manageFunctionsExecute_ok fdb args resolve cs hconn,
        manageFunctionsBody_create_missing fdb args cs hop hne]
    · intro f hf
      exact strInfix_appendContext f (joinComma (missingCreateFields args))
        "Error: Missing required fields: "
        ". Note: parameters can be empty string \"\" for functions with no parameters"
        (strInfix_mem_joinComma f _ hf)
  · intro hop hmiss
    rw [manageFunctionsExecute_ok fdb args resolve cs hconn,
      manageFunctionsBody_drop_missing fdb args cs hop hmiss]
  · intro hop hmiss
    rw [manageRLSExecute_ok rdb args resolve cs hconn,
      manageRLSBody_enable_missing rdb args cs hop hmiss]
  · intro hop hmiss
    rw [manageRLSExecute_ok rdb args resolve cs hconn,
      manageRLSBody_disable_missing rdb args cs hop hmiss]
  · intro hop hmiss
    rw [manageRLSExecute_ok rdb args resolve cs hconn,
      manageRLSBody_createPolicy_missing rdb args cs hop hmiss]
  · intro hop hmiss
    rw [manageRLSExecute_ok rdb args resolve cs hconn,
      manageRLSBody_editPolicy_missing rdb args cs hop hmiss]
  · intro hop hmiss
    rw [manageRLSExecute_ok rdb args resolve cs hconn,
      manageRLSBody_dropPolicy_missing rdb args cs hop hmiss]

/-- The arguments of the C6 scenario, with an explicit connection string so
that resolution succeeds: `operation: "create"`, `parameters: ""`, and no
`functionName` / `returnType` / `functionBody`. -/
def c6ScenarioArgs : ToolArgs :=
  { connectionString := some "postgresql://demo", operation := some "create",
    parameters := some "" }

set_option maxRecDepth 8192 in
theorem C6_amended_missing_fields_witness :
    manageFunctionsExecute trivialFunctionsDb c6ScenarioArgs (getConnectionString {}) =
        .ok (errEnv (createMissingMsg (missingCreateFields c6ScenarioArgs))) ∧
      missingCreateFields c6ScenarioArgs = ["functionName", "returnType", "functionBody"] ∧
      strInfix "functionName" (createMissingMsg (missingCreateFields c6ScenarioArgs)) ∧
      strInfix "returnType" (createMissingMsg (missingCreateFields c6ScenarioArgs)) ∧
      strInfix "functionBody" (createMissingMsg (missingCreateFields c6ScenarioArgs)) := by
  have h := (C6_amended_missing_fields trivialFunctionsDb trivialRlsDb (getConnectionString {})
    c6ScenarioArgs "postgresql://demo" rfl).1 rfl (by decide)
  exact ⟨h.1, rfl, h.2 "functionName" (by decide), h.2 "returnType" (by decide),
    h.2 "functionBody" (by decide)⟩

set_option maxRecDepth 8192 in
/-- C6 counterexample: the claim fails as stated for the very scenario it
quotes, because connection-string resolution precedes field validation: with
no connection string configured anywhere,
`callTool("pg_manage_functions", {operation:"create", parameters:""})`
returns the connection-configuration error envelope, whose message contains
none of `functionName`, `returnType`, `functionBody`. -/
theorem C6_counterexample_conn_before_validation :
    manageFunctionsExecute trivialFunctionsDb
        { operation := some "create", parameters := some "" }
        (getConnectionString emptyCliEnv) = .error noConnStringMsg ∧
      handleCallTool manageFnDemoServer emptyCliEnv "pg_manage_functions"
          { operation := some "create", parameters := some "" } =
        errEnv ("Error: " ++ noConnStringMsg) ∧
      ¬strInfix "functionName" ("Error: " ++ noConnStringMsg) ∧
      ¬strInfix "returnType" ("Error: " ++ noConnStringMsg) ∧
      ¬strInfix "functionBody" ("Error: " ++ noConnStringMsg) := by
  refine ⟨rfl, rfl, by decide, by decide, by decide⟩

/-! ## Claim C7 -/

theorem manageFunctionsBody_get (db : FunctionsDb) (args : ToolArgs) (cs : String)
    (hop : args.operation = some "get") :
    manageFunctionsBody db args cs =
      (let result := db.getFunctions cs args.functionName args.schema
       if result.success then getStyleOutput result else errEnv result.message) := by
  simp [manageFunctionsBody, hop]

/-- C7: the connection string a tool invocation uses is the first non-empty of
explicit argument, CLI default, environment default (`getConnectionString`
agrees with `firstNonEmpty` over the three sources, erring with the
configuration message when all are empty); a tool's database helper is invoked
with exactly the resolved string; and when all three sources are absent the
dispatcher still returns — as that call's error envelope — rather than
propagating the failure (the server process keeps handling requests). -/
theorem C7_connection_string_precedence (cfg : CliEnvConfig) (arg : Option String) :
    getConnectionString cfg arg =
        (match firstNonEmpty [arg, cfg.cliConnectionString, cfg.envConnectionString] with
          | some s => .ok s
          | none => .error noConnStringMsg) ∧
      (∀ (db : FunctionsDb) (args : ToolArgs) (cs : String),
        getConnectionString cfg args.connectionString = .ok cs →
        args.operation = some "get" →
        manageFunctionsExecute db args (getConnectionString cfg) =
          .ok (let result := db.getFunctions cs args.functionName args.schema
               if result.success then getStyleOutput result else errEnv result.message)) ∧
      handleCallTool manageFnDemoServer emptyCliEnv "pg_manage_functions"
          { operation := some "get" } = errEnv ("Error: " ++ noConnStringMsg) := by
  refine ⟨?_, ?_, rfl⟩
  · by_cases h1 : jsTruthy arg
    · simp [getConnectionString, firstNonEmpty, h1]
    · by_cases h2 : jsTruthy cfg.cliConnectionString
      · simp [getConnectionString, firstNonEmpty, h1, h2]
      · by_cases h3 : jsTruthy cfg.envConnectionString
        · simp [getConnectionString, firstNonEmpty, h1, h2, h3]
        · simp [getConnectionString, firstNonEmpty, h1, h2, h3]
  · intro db args cs hconn hop
    rw [manageFunctionsExecute_ok db args (getConnectionString cfg) cs hconn,
      manageFunctionsBody_get db args cs hop]

theorem C7_connection_string_precedence_witness :
    manageFunctionsExecute trivialFunctionsDb { operation := some "get" }
        (getConnectionString { cliConnectionString := some "postgresql://cli" }) =
      .ok (let result := trivialFunctionsDb.getFunctions "postgresql://cli" none none
           if result.success then getStyleOutput result else errEnv result.message) :=
  (C7_connection_string_precedence { cliConnectionString := some "postgresql://cli" } none).2.1
    trivialFunctionsDb { operation := some "get" } "postgresql://cli" rfl rfl

/-! ## Claim C8 -/

/-- C8 amended (the part of the claim the functions/RLS read operations do
satisfy): the SQL text `_getFunctions` and `_getRLSPolicies` pass to `query`
is one of two fixed strings, independent of the caller-supplied filter values;
the schema and optional name filter travel exclusively in the positional
parameter list (`$1`, `$2`). -/
theorem C8_amended_positional_binding (fn fn' s s' t t' : String) :
    (getFunctionsQuery (some fn) s).1 = (getFunctionsQuery (some fn') s').1 ∧
      (getFunctionsQuery (some fn) s).2 = [s, fn] ∧
      (getFunctionsQuery none s).1 = (getFunctionsQuery none s').1 ∧
      (getFunctionsQuery none s).2 = [s] ∧
      (getRLSPoliciesQuery (some t) s).1 = (getRLSPoliciesQuery (some t') s').1 ∧
      (getRLSPoliciesQuery (some t) s).2 = [s, t] ∧
      (getRLSPoliciesQuery none s).1 = (getRLSPoliciesQuery none s').1 ∧
      (getRLSPoliciesQuery none s).2 = [s] :=
  ⟨rfl, rfl, rfl, rfl, rfl, rfl, rfl, rfl⟩

/-- Oracle with a succeeding connect and empty rowsets, for concrete traces. -/
def c8Oracle : DbOracle := { connectOutcome := .ok (), queryOutcome := fun _ => .ok [] }

set_option maxRecDepth 8192 in
/-- C8 counterexample: `getDatabaseComment` accepts the free-form filter value
`objectName` and interpolates it into the SQL text it passes to `query` (with
an empty binding list), falsifying the claim that every such operation passes
caller values only through positional bindings; `setDatabaseComment` likewise
interpolates the (quote-doubled) comment data value into its statement. -/
theorem C8_counterexample_interpolated_value :
    ((getDatabaseCommentRun c8Oracle "postgresql://db" "table" "users" {}) []).2 =
        [DbEvent.connect,
          DbEvent.query "SELECT obj_description(to_regclass('public.users')::oid) AS comment" [],
          DbEvent.disconnect] ∧
      strInfix "users" "SELECT obj_description(to_regclass('public.users')::oid) AS comment" ∧
      setDatabaseCommentSql "table" "users" "it's nice" {} =
        .ok "COMMENT ON TABLE public.users IS 'it''s nice'" := by
  refine ⟨rfl, by decide, rfl⟩

/-! ## Claim C9 -/

theorem heldAfter_analyzeDatabaseRun (o : DbOracle) (cs aty : String) :
    heldAfter ((analyzeDatabaseRun o cs aty) []).2 = false := by
  unfold analyzeDatabaseRun dTryFinally dbind dbConnect
  cases hc : o.connectOutcome with
  | ok u =>
      simp only [hc]
      exact heldAfter_dTryCatchFinally (analyzeBody o aty) (fun e => dthrow e)
        ([] ++ [DbEvent.connect])
  | error e =>
      simp only [hc]
      rfl

/-- C9: every embedded tool operation that connects to the database holds no
connection handle once its trace is complete, for every oracle behaviour —
success, query error, thrown exception, and failed connect alike: the
operations wrapped in `try/catch/finally { disconnect }` always end in a
`disconnect`, and `analyzeDatabase` (whose `connect` precedes its
`try/finally`) either fails to acquire a handle or disconnects. -/
theorem C9_connection_released_on_all_paths (o : DbOracle) (cs : String)
    (fn sch tbl sch2 : Option String) (ty n cmt aty : String) (opts : CommentOpts) :
    heldAfter ((getFunctionsRun o cs fn sch) []).2 = false ∧
      heldAfter ((getRLSPoliciesRun o cs tbl sch2) []).2 = false ∧
      heldAfter ((setDatabaseCommentRun o cs ty n cmt opts) []).2 = false ∧
      heldAfter ((removeDatabaseCommentRun o cs ty n opts) []).2 = false ∧
      heldAfter ((getDatabaseCommentRun o cs ty n opts) []).2 = false ∧
      heldAfter ((analyzeDatabaseRun o cs aty) []).2 = false := by
  refine ⟨?_, ?_, ?_, ?_, ?_, heldAfter_analyzeDatabaseRun o cs aty⟩
  · exact heldAfter_dTryCatchFinally _ _ _
  · exact heldAfter_dTryCatchFinally _ _ _
  · exact heldAfter_dTryCatchFinally _ _ _
  · exact heldAfter_dTryCatchFinally _ _ _
  · exact heldAfter_dTryCatchFinally _ _ _

/-! ## Claim C10 -/

/-- C10: `removeDatabaseComment` returns, for every object type, name,
options and database behaviour, exactly the result of `setDatabaseComment`
with comment text `NULL`; since escaping leaves `NULL` untouched, the
statement issued has the shape `COMMENT ON ... IS 'NULL'` with the
four-character string literal — it sets the comment to the text `NULL`
instead of clearing it with SQL `NULL`. -/
theorem C10_remove_comment_sets_literal_NULL (o : DbOracle) (cs ty n : String)
    (opts : CommentOpts) :
    removeDatabaseCommentRun o cs ty n opts = setDatabaseCommentRun o cs ty n "NULL" opts ∧
      escapeComment "NULL" = "NULL" ∧
      (∀ (name2 : String) (opts2 : CommentOpts),
        setDatabaseCommentSql "table" name2 "NULL" opts2 =
          .ok ("COMMENT ON TABLE " ++ opts2.schema.getD "public" ++ "." ++ name2 ++
            " IS 'NULL'")) ∧
      setDatabaseCommentSql "table" "users" "NULL" {} =
        .ok "COMMENT ON TABLE public.users IS 'NULL'" ∧
      setDatabaseCommentSql "function" "f" "NULL" { parameters := some "integer" } =
        .ok "COMMENT ON FUNCTION public.f(integer) IS 'NULL'" := by
  refine ⟨rfl, rfl, ?_, rfl, rfl⟩
  intro name2 opts2
  have hesc : escapeComment "NULL" = "NULL" := rfl
  simp [setDatabaseCommentSql, hesc, String.append_assoc]
